import Mathlib

/-!
# Verification of the pivit signing orchestration (pkg/pivit/sign.go)

This file is a shallow embedding of the `Sign` operation of the pivit
repository and of its identity-resolution helpers (`normalizeEmail`,
`normalizeFingerprint`, `certificateContainsEmail`,
`certificateContainsUserId`), together with theorems settling the
specification claims about them.

Modelling conventions:
* Go strings are Lean `String`s; index computations work over `String.data`
  (the character list). The delimiters inspected by the source (`<`, `>`,
  `@`) are ASCII, and ASCII bytes never occur inside a UTF-8 multibyte
  sequence, so character indices and Go's byte indices select the same
  substrings and agree on all slice-bounds (panic) conditions.
* A Go slice expression `s[i:j]` panics unless `0 ≤ i ≤ j ≤ len(s)`;
  this is modelled by `goSliceStr` returning `none` in the panic case.
* Go `error` values are `GoError`: `GoError.mk` models `errors.New` /
  `errors.Errorf` (a fresh leaf error), `GoError.wrap` models
  `errors.Wrap`/`errors.Wrapf` (a context message chained onto a cause).
* A Go computation that may panic is a `GoResult`.
* External collaborators (smartcard driver, CMS library, file system,
  stdout) are oracles collected in a `World` record; `Sign` is a pure
  function of its arguments and the `World`, returning its result plus an
  observable trace (stdout blocks, status events, input-source facts).
-/

namespace Pivit

/-- Byte strings (file contents, DER output) as lists of byte values. -/
abbrev ByteSeq := List Nat

/-- Go `error` values: `mk` is `errors.New`/`errors.Errorf` (a leaf with a
message and no cause); `wrap` is `errors.Wrap(cause, msg)`. -/
inductive GoError where
  | mk (msg : String)
  | wrap (cause : GoError) (msg : String)
deriving DecidableEq

/-- Outcome of a Go computation: a value, an `error` return, or a runtime
panic (with the panic reason). -/
inductive GoResult (α : Type) where
  | ok (a : α)
  | err (e : GoError)
  | panicked (reason : String)
deriving DecidableEq

def GoResult.isOk : GoResult α → Bool
  | .ok _ => true
  | _ => false

def GoResult.isErr : GoResult α → Bool
  | .err _ => true
  | _ => false

def GoResult.isPanicked : GoResult α → Bool
  | .panicked _ => true
  | _ => false

/-- Go `strings.Index(s, c)` for a single-character pattern: the index of
the first occurrence of `c` in `s`, or `-1` when absent. -/
def strIndexChar (s : String) (c : Char) : Int :=
  match List.findIdx? (fun a => a = c) s.data with
  | some i => Int.ofNat i
  | none => -1

/-- Go string slicing `s[i:j]`: defined when `0 ≤ i ≤ j ≤ len(s)`,
otherwise a runtime panic, modelled as `none`. -/
def goSliceStr (s : String) (i j : Int) : Option String :=
  if 0 ≤ i ∧ i ≤ j ∧ j ≤ (s.data.length : Int) then
    some (String.mk (List.drop i.toNat (List.take j.toNat s.data)))
  else
    none

/-- ASCII case folding of one character.  Go's `strings.EqualFold` performs
Unicode simple folding; on the ASCII alphabet relevant here (hex
fingerprints and the `0x` marker) the two coincide. -/
def foldASCII (c : Char) : Char :=
  if 'A' ≤ c ∧ c ≤ 'Z' then Char.ofNat (c.toNat + 32) else c

/-- Go `strings.EqualFold` restricted to ASCII folding (see `foldASCII`). -/
def strEqualFold (a b : String) : Bool :=
  a.data.map foldASCII == b.data.map foldASCII

/-- The slice of an `x509.Certificate` visible to `sign.go`: the
subject-alternative-name email addresses, and the hex fingerprint.
The field `fingerprintHex` is Modelled from the spec: it stands for
`utils.CertHexFingerprint(cert)` (the `utils` package is not under `src/`),
"the hex digest of the full DER encoding of the certificate"; the digest
itself is external, so the fingerprint is carried as an abstract field. -/
structure Certificate where
  emailAddresses : List String
  fingerprintHex : String
deriving DecidableEq

/-- Modelled from the spec: `utils.CertHexFingerprint` (not under `src/`),
read off the certificate's abstract fingerprint field. -/
def CertHexFingerprint (cert : Certificate) : String :=
  cert.fingerprintHex

/-- `normalizeEmail` from sign.go: if the user id contains `<`, return the
slice `userId[indexOf <, indexOf >]` (note: the source keeps the leading
`<` and panics when `>` is missing or precedes `<`); otherwise, if it
contains `@`, return the whole user id; otherwise an error. -/
def normalizeEmail (userId : String) : GoResult String :=
  let emailStartIndex := strIndexChar userId '<'
  if emailStartIndex ≠ -1 then
    match goSliceStr userId emailStartIndex (strIndexChar userId '>') with
    | some sub => GoResult.ok sub
    | none => GoResult.panicked "slice bounds out of range"
  else if userId.data.contains '@' then
    GoResult.ok userId
  else
    GoResult.err (GoError.mk "user id doesn't contain email address")

/-- `normalizeFingerprint` from sign.go: `strings.TrimPrefix(userId, "0x")`. -/
def normalizeFingerprint (userId : String) : String :=
  match userId.data with
  | '0' :: 'x' :: rest => String.mk rest
  | _ => userId

/-- `certificateContainsEmail` from sign.go: exact (case-sensitive) string
equality against the SAN email list. -/
def certificateContainsEmail (certificate : Certificate) (email : String) : Bool :=
  certificate.emailAddresses.contains email

/-- `certificateContainsUserId` from sign.go: resolve the user id to an
email (when possible) and check SAN membership; otherwise treat it as a
fingerprint, strip `0x`, and compare with `strings.EqualFold` against
`utils.CertHexFingerprint(cert)`. -/
def certificateContainsUserId (cert : Certificate) (userId : String) : GoResult Unit :=
  match normalizeEmail userId with
  | GoResult.panicked r => GoResult.panicked r
  | GoResult.err _ =>
    let fingerprint := normalizeFingerprint userId
    if strEqualFold (CertHexFingerprint cert) fingerprint then
      GoResult.ok ()
    else
      GoResult.err (GoError.mk ("no certificate found with fingerprint " ++ fingerprint))
  | GoResult.ok email =>
    if certificateContainsEmail cert email then
      GoResult.ok ()
    else
      GoResult.err (GoError.mk ("no certificate found with email " ++ email))

example : normalizeEmail "Alice <alice@example.com>" = GoResult.ok "<alice@example.com" := by decide
example : normalizeEmail "Alice <alice" = GoResult.panicked "slice bounds out of range" := by decide
example : normalizeEmail "alice@example.com" = GoResult.ok "alice@example.com" := by decide
example : normalizeFingerprint "0xAB" = "AB" := by decide
example : strEqualFold "DeadBeef" "DEADbeef" = true := by decide

/-- `SignOpts` from sign.go (field for field). -/
structure SignOpts where
  statusFd : Int
  detach : Bool
  armor : Bool
  userId : String
  timestampAuthority : String
  fileArgs : List String

/-- A status event written on the status channel:
`status.EmitBeginSigning()` and `status.EmitSigCreated(cert, detached)`. -/
inductive StatusEvent where
  | beginSigning
  | sigCreated (cert : Certificate) (detached : Bool)
deriving DecidableEq

/-- A block written to standard output: either the raw DER bytes
(`os.Stdout.Write(der)`) or a PEM envelope (`pem.Encode` with the given
block type carrying exactly those bytes).  The PEM text encoding itself is
the external `encoding/pem` library; the envelope is modelled as a
constructor holding the label and the enclosed bytes. -/
inductive OutBlock where
  | raw (bytes : ByteSeq)
  | pemBlock (label : String) (bytes : ByteSeq)
deriving DecidableEq

/-- The state of the external CMS `SignedData` structure as driven by
`Sign`: the content handed to `cms.NewSignedData`, the certificates passed
to `sd.Sign`, the detached flag (`sd.Detached()`), the timestamp-authority
URLs for which `sd.AddTimestamps` succeeded, and the chain passed to
`sd.SetCertificates`. -/
structure SignedData where
  content : ByteSeq
  signerCerts : List Certificate
  detached : Bool
  timestamps : List String
  chain : List Certificate
deriving DecidableEq

/-- Oracles for the external collaborators of `Sign`.
`getSigner`/`getCert` model `yubikey.GetSigner` and `yk.Certificate`;
`openFile`/`readFile`/`readStdin` model `os.Open` and `io.Copy`;
`newSignedData`, `signErr`, `addTimestampsErr`, `setCertificatesErr` and
`toDER` model the CMS library calls; `writeErr` models a failure of the
final stdout write (raw or PEM).  `statusConfigured` is Modelled from the
spec: the `status` package is not under `src/`; per the spec,
`SetupStatus(fd)` establishes a destination or no-ops when the descriptor
is invalid/unset, and every emit call is a no-op that never fails when no
destination was configured. -/
structure World where
  getSigner : Except GoError Unit
  getCert : Except GoError Certificate
  statusConfigured : Bool
  openFile : String → Except GoError Unit
  readFile : String → Except GoError ByteSeq
  readStdin : Except GoError ByteSeq
  newSignedData : ByteSeq → Except GoError Unit
  signErr : Option GoError
  addTimestampsErr : String → Option GoError
  setCertificatesErr : Option GoError
  toDER : SignedData → Except GoError ByteSeq
  writeErr : Option GoError

/-- The observable outcome of one `Sign` invocation: the returned
result, the blocks written to standard output, the status events emitted in
order, the file opened for input (if any), and whether standard input was
used as the input source. -/
structure SignOutcome where
  result : GoResult Unit
  stdout : List OutBlock
  statusEvents : List StatusEvent
  openedFile : Option String
  usedStdin : Bool
deriving DecidableEq

/-- Step 5 of `Sign` (the `if len(opts.FileArgs) == 1` block): open and
read the single named file, or read standard input.  Returns the bytes (or
the wrapped error), the successfully opened file (if any), and whether
stdin was the source. -/
def readInputStep (fileArgs : List String) (w : World) :
    Except GoError ByteSeq × Option String × Bool :=
  if fileArgs.length = 1 then
    let name := fileArgs.headD ""
    match w.openFile name with
    | Except.error e =>
      (Except.error (GoError.wrap e ("open message file (" ++ name ++ ")")), none, false)
    | Except.ok _ =>
      match w.readFile name with
      | Except.error e =>
        (Except.error (GoError.wrap e "read message to sign"), some name, false)
      | Except.ok bs => (Except.ok bs, some name, false)
  else
    match w.readStdin with
    | Except.error e => (Except.error (GoError.wrap e "read message to sign"), none, true)
    | Except.ok bs => (Except.ok bs, none, true)

/-- `Sign` from sign.go, step for step: open the PIV session, fetch the
certificate, validate the user id, set up the status channel, read the
input, build and sign the CMS structure, emit BEGIN_SIGNING, apply detach,
timestamps and the certificate chain, serialize, emit SIG_CREATED, and
write the output (raw DER or a PEM block labeled SIGNED MESSAGE). -/
def Sign (slot : String) (opts : SignOpts) (w : World) : SignOutcome :=
  match w.getSigner with
  | Except.error e =>
    { result := GoResult.err (GoError.wrap e "open PIV for signing"),
      stdout := [], statusEvents := [], openedFile := none, usedStdin := false }
  | Except.ok _ =>
    match w.getCert with
    | Except.error e =>
      { result := GoResult.err (GoError.wrap e "get identity certificate"),
        stdout := [], statusEvents := [], openedFile := none, usedStdin := false }
    | Except.ok cert =>
      match certificateContainsUserId cert opts.userId with
      | GoResult.panicked r =>
        { result := GoResult.panicked r,
          stdout := [], statusEvents := [], openedFile := none, usedStdin := false }
      | GoResult.err e =>
        { result := GoResult.err (GoError.wrap e "no suitable certificate found"),
          stdout := [], statusEvents := [], openedFile := none, usedStdin := false }
      | GoResult.ok _ =>
        match readInputStep opts.fileArgs w with
        | (Except.error e, openedFile, usedStdin) =>
          { result := GoResult.err e, stdout := [], statusEvents := [],
            openedFile := openedFile, usedStdin := usedStdin }
        | (Except.ok dataBuf, openedFile, usedStdin) =>
          match w.newSignedData dataBuf with
          | Except.error e =>
            { result := GoResult.err (GoError.wrap e "create signed data"),
              stdout := [], statusEvents := [],
              openedFile := openedFile, usedStdin := usedStdin }
          | Except.ok _ =>
            match w.signErr with
            | some e =>
              { result := GoResult.err (GoError.wrap e "sign message"),
                stdout := [], statusEvents := [],
                openedFile := openedFile, usedStdin := usedStdin }
            | none =>
              -- status.EmitBeginSigning() happens here; every later branch
              -- therefore carries the begin-signing event (when the status
              -- channel is configured).  sd.Detached() is called exactly
              -- when opts.Detach holds, so after this point the structure's
              -- detached flag equals opts.detach; sd.AddTimestamps runs (and
              -- can fail) exactly when a timestamp authority was supplied.
              match (if opts.timestampAuthority.length > 0 then
                      w.addTimestampsErr opts.timestampAuthority
                    else none) with
              | some e =>
                { result := GoResult.err (GoError.wrap e "add timestamp to signature"),
                  stdout := [],
                  statusEvents := if w.statusConfigured then [StatusEvent.beginSigning] else [],
                  openedFile := openedFile, usedStdin := usedStdin }
              | none =>
                match w.setCertificatesErr with
                | some e =>
                  { result := GoResult.err (GoError.wrap e "set certificates in signature"),
                    stdout := [],
                    statusEvents := if w.statusConfigured then [StatusEvent.beginSigning] else [],
                    openedFile := openedFile, usedStdin := usedStdin }
                | none =>
                  match w.toDER
                      { content := dataBuf, signerCerts := [cert],
                        detached := opts.detach,
                        timestamps :=
                          if opts.timestampAuthority.length > 0 then
                            [opts.timestampAuthority] else [],
                        chain := [cert] } with
                  | Except.error e =>
                    { result := GoResult.err (GoError.wrap e "serialize signature"),
                      stdout := [],
                      statusEvents := if w.statusConfigured then [StatusEvent.beginSigning] else [],
                      openedFile := openedFile, usedStdin := usedStdin }
                  | Except.ok der =>
                    match w.writeErr with
                    | some _ =>
                      { result := GoResult.err (GoError.mk "write signature"),
                        stdout := [],
                        statusEvents :=
                          (if w.statusConfigured then [StatusEvent.beginSigning] else []) ++
                            (if w.statusConfigured then
                              [StatusEvent.sigCreated cert opts.detach] else []),
                        openedFile := openedFile, usedStdin := usedStdin }
                    | none =>
                      { result := GoResult.ok (),
                        stdout :=
                          [if opts.armor then
                            OutBlock.pemBlock "SIGNED MESSAGE" der
                          else
                            OutBlock.raw der],
                        statusEvents :=
                          (if w.statusConfigured then [StatusEvent.beginSigning] else []) ++
                            (if w.statusConfigured then
                              [StatusEvent.sigCreated cert opts.detach] else []),
                        openedFile := openedFile, usedStdin := usedStdin }

/-- The email that would be matched against the SAN list: the value
`normalizeEmail` resolves the hint to, when it resolves to one. -/
def resolvedEmailContained (cert : Certificate) (userId : String) : Bool :=
  match normalizeEmail userId with
  | GoResult.ok email => certificateContainsEmail cert email
  | _ => false

/-- The email string `normalizeEmail` resolves the hint to
(empty when the hint does not resolve to an email). -/
def resolvedEmailStr (userId : String) : String :=
  match normalizeEmail userId with
  | GoResult.ok email => email
  | _ => ""

/-- A stub certificate whose SAN list holds one email address. -/
def certAlice : Certificate :=
  { emailAddresses := ["alice@example.com"], fingerprintHex := "deadbeef" }

lemma strIndexChar_eq_neg_one (s : String) (c : Char) (h : c ∉ s.data) :
    strIndexChar s c = -1 := by
  unfold strIndexChar
  have hnone : List.findIdx? (fun a => a = c) s.data = none := by
    rw [List.findIdx?_eq_none_iff]
    intro x hx
    simp only [decide_eq_false_iff_not]
    intro hxc
    exact h (hxc ▸ hx)
  rw [hnone]

lemma contains_eq_false_of_not_mem {l : List Char} {c : Char} (h : c ∉ l) :
    l.contains c = false := by
  cases hc : l.contains c with
  | false => rfl
  | true => exact absurd (List.mem_of_elem_eq_true hc) h

/-- Claim C1: the claim expects `normalizeEmail` to extract exactly the
substring strictly between the first `<` and the first subsequent `>`, so
that an exact SAN match succeeds for `Name <email>` hints.  The code
instead slices `userId[indexOf <, indexOf >]`, keeping the leading `<`;
evaluated at the failing input, the resolved token is `<alice@example.com`
and the SAN match fails even though the enclosed address is a SAN entry. -/
theorem claim_C1_code_eval :
    normalizeEmail "Alice <alice@example.com>" = GoResult.ok "<alice@example.com"
    ∧ certificateContainsEmail certAlice "alice@example.com" = true
    ∧ certificateContainsUserId certAlice "Alice <alice@example.com>"
        = GoResult.err (GoError.mk "no certificate found with email <alice@example.com") := by
  decide

/-- Claim C2: the claim (and the spec) require a malformed-identity error
when a hint contains `<` but no subsequent `>`.  The code computes the
index of `>` independently (`-1` when absent) and slices with it, which is
a runtime panic, not an error return: evaluated at the failing input both
`normalizeEmail` and the identity check end in the panic outcome. -/
theorem claim_C2_code_eval :
    normalizeEmail "Alice <alice" = GoResult.panicked "slice bounds out of range"
    ∧ certificateContainsUserId certAlice "Alice <alice"
        = GoResult.panicked "slice bounds out of range" := by
  decide

/-- Claim C3 (counterexample to the claim as stated): at the hint `<` the
identity check neither returns success nor returns an IdentityMismatch
error — it panics — so "returns success iff ... otherwise returns an
IdentityMismatch error" fails for this certificate/hint pair. -/
theorem claim_C3_counterexample :
    certificateContainsUserId certAlice "<" = GoResult.panicked "slice bounds out of range"
    ∧ (certificateContainsUserId certAlice "<").isOk = false
    ∧ (certificateContainsUserId certAlice "<").isErr = false := by
  decide

/-- Claim C3 (amended): for every certificate and identity hint on which
the email-extraction step does not panic, the identity check returns
success iff the resolved email is in the certificate's SAN email list
(exact string equality) or the hint resolves to a fingerprint (no email
resolvable) equal, case-insensitively, to the certificate's hex
fingerprint; otherwise it returns exactly the IdentityMismatch error naming
the expected email or the expected fingerprint. -/
theorem claim_C3_amended (cert : Certificate) (userId : String)
    (hnp : (normalizeEmail userId).isPanicked = false) :
    (certificateContainsUserId cert userId = GoResult.ok ()
      ↔ (resolvedEmailContained cert userId = true
          ∨ ((normalizeEmail userId).isErr = true
              ∧ strEqualFold (CertHexFingerprint cert) (normalizeFingerprint userId) = true)))
    ∧ (certificateContainsUserId cert userId = GoResult.ok ()
        ∨ certificateContainsUserId cert userId
            = GoResult.err (GoError.mk ("no certificate found with email "
                ++ resolvedEmailStr userId))
        ∨ certificateContainsUserId cert userId
            = GoResult.err (GoError.mk ("no certificate found with fingerprint "
                ++ normalizeFingerprint userId))) := by
  unfold certificateContainsUserId resolvedEmailContained resolvedEmailStr
  cases hne : normalizeEmail userId with
  | panicked r =>
    rw [hne] at hnp
    simp [GoResult.isPanicked] at hnp
  | err e =>
    by_cases hf : strEqualFold (CertHexFingerprint cert) (normalizeFingerprint userId) = true
    · simp [hf, GoResult.isErr]
    · simp [hf, GoResult.isErr]
  | ok email =>
    by_cases hc : certificateContainsEmail cert email = true
    · simp [hc, GoResult.isErr]
    · simp [hc, GoResult.isErr]

/-- Claim C3 witness: the amended claim instantiated at the stub
certificate and the plain-email hint that is one of its SAN entries. -/
theorem claim_C3_witness :
    (certificateContainsUserId certAlice "alice@example.com" = GoResult.ok ()
      ↔ (resolvedEmailContained certAlice "alice@example.com" = true
          ∨ ((normalizeEmail "alice@example.com").isErr = true
              ∧ strEqualFold (CertHexFingerprint certAlice)
                  (normalizeFingerprint "alice@example.com") = true)))
    ∧ (certificateContainsUserId certAlice "alice@example.com" = GoResult.ok ()
        ∨ certificateContainsUserId certAlice "alice@example.com"
            = GoResult.err (GoError.mk ("no certificate found with email "
                ++ resolvedEmailStr "alice@example.com"))
        ∨ certificateContainsUserId certAlice "alice@example.com"
            = GoResult.err (GoError.mk ("no certificate found with fingerprint "
                ++ normalizeFingerprint "alice@example.com"))) :=
  claim_C3_amended certAlice "alice@example.com" (by decide)

/-- Claim C6: for every identity hint containing neither `<` nor `@`
(the spec's "neither `<...>` nor `@`" case), the identity check treats the
hint as a fingerprint: a leading `0x` is stripped (`normalizeFingerprint`)
and the result is compared case-insensitively (`strEqualFold`) against the
certificate's hex fingerprint, succeeding exactly on a fold-equal match. -/
theorem claim_C6 (cert : Certificate) (userId : String)
    (hlt : '<' ∉ userId.data) (hat : '@' ∉ userId.data) :
    certificateContainsUserId cert userId =
      (if strEqualFold (CertHexFingerprint cert) (normalizeFingerprint userId) then
        GoResult.ok ()
      else
        GoResult.err
          (GoError.mk ("no certificate found with fingerprint "
            ++ normalizeFingerprint userId))) := by
  have h1 : strIndexChar userId '<' = -1 := strIndexChar_eq_neg_one userId '<' hlt
  have h2 : userId.data.contains '@' = false := contains_eq_false_of_not_mem hat
  unfold certificateContainsUserId normalizeEmail
  simp [h1, h2, hat]

/-- Claim C6 witness: a `0x`-prefixed upper-case hint matches the stub
certificate's lower-case fingerprint. -/
theorem claim_C6_witness :
    certificateContainsUserId certAlice "0xDEADBEEF" =
      (if strEqualFold (CertHexFingerprint certAlice) (normalizeFingerprint "0xDEADBEEF") then
        GoResult.ok ()
      else
        GoResult.err
          (GoError.mk ("no certificate found with fingerprint "
            ++ normalizeFingerprint "0xDEADBEEF"))) :=
  claim_C6 certAlice "0xDEADBEEF" (by decide) (by decide)

/-- The CMS structure state at serialization time, as assembled by `Sign`
for a given certificate, input content and options: signed with the leaf
certificate, detached iff requested, timestamped iff an authority URL was
supplied, chain set to the single leaf certificate. -/
def signedDataOf (cert : Certificate) (content : ByteSeq) (opts : SignOpts) : SignedData :=
  { content := content
    signerCerts := [cert]
    detached := opts.detach
    timestamps := if opts.timestampAuthority.length > 0 then [opts.timestampAuthority] else []
    chain := [cert] }

/-- A world in which every external collaborator succeeds and the status
channel is configured. -/
def worldOk : World :=
  { getSigner := Except.ok ()
    getCert := Except.ok certAlice
    statusConfigured := true
    openFile := fun _ => Except.ok ()
    readFile := fun _ => Except.ok [104, 105]
    readStdin := Except.ok [104, 105]
    newSignedData := fun _ => Except.ok ()
    signErr := none
    addTimestampsErr := fun _ => none
    setCertificatesErr := none
    toDER := fun _ => Except.ok [48, 1]
    writeErr := none }

/-- Options matching `certAlice` by SAN email: detached, no armor, input
from stdin, no timestamp authority. -/
def optsAlice : SignOpts :=
  { statusFd := 2
    detach := true
    armor := false
    userId := "alice@example.com"
    timestampAuthority := ""
    fileArgs := [] }

/-- Options whose identity hint (a fingerprint) does not match `certAlice`. -/
def optsMismatch : SignOpts :=
  { optsAlice with userId := "0xBAD" }

/-- Claim C4: when the identity hint does not match the certificate, `Sign`
fails with the IdentityMismatch error wrapped in "no suitable certificate
found", writes nothing to standard output, and emits no status event at all
(in particular no SigCreated). -/
theorem claim_C4 (slot : String) (opts : SignOpts) (w : World) (cert : Certificate)
    (e : GoError)
    (hgs : w.getSigner = Except.ok ())
    (hgc : w.getCert = Except.ok cert)
    (hid : certificateContainsUserId cert opts.userId = GoResult.err e) :
    (Sign slot opts w).result = GoResult.err (GoError.wrap e "no suitable certificate found")
    ∧ (Sign slot opts w).stdout = []
    ∧ (Sign slot opts w).statusEvents = [] := by
  unfold Sign
  rw [hgs, hgc]
  dsimp only
  rw [hid]
  exact ⟨rfl, rfl, rfl⟩

/-- Claim C4 witness: the non-matching fingerprint hint `0xBAD` against the
stub certificate. -/
theorem claim_C4_witness :
    (Sign "9c" optsMismatch worldOk).result
        = GoResult.err (GoError.wrap (GoError.mk "no certificate found with fingerprint BAD")
            "no suitable certificate found")
    ∧ (Sign "9c" optsMismatch worldOk).stdout = []
    ∧ (Sign "9c" optsMismatch worldOk).statusEvents = [] :=
  claim_C4 "9c" optsMismatch worldOk certAlice
    (GoError.mk "no certificate found with fingerprint BAD") rfl rfl (by decide)

/-- Claim C9: when the CMS signing step fails, no status event is emitted:
both emissions sit after a successful sign step in program order, so the
status-event trace is empty whenever `sd.Sign` returns an error. -/
theorem claim_C9 (slot : String) (opts : SignOpts) (w : World) (e : GoError)
    (hsign : w.signErr = some e) :
    (Sign slot opts w).statusEvents = [] := by
  simp only [Sign]
  cases w.getSigner with
  | error e1 => rfl
  | ok u =>
    dsimp only
    cases w.getCert with
    | error e1 => rfl
    | ok cert =>
      dsimp only
      cases certificateContainsUserId cert opts.userId with
      | panicked r => rfl
      | err e1 => rfl
      | ok u2 =>
        dsimp only
        cases hri : readInputStep opts.fileArgs w with
        | mk r1 rest =>
          cases rest with
          | mk ofl us =>
            cases r1 with
            | error e1 => rfl
            | ok bs =>
              dsimp only
              cases w.newSignedData bs with
              | error e1 => rfl
              | ok u3 =>
                dsimp only
                rw [hsign]

/-- Claim C9 witness: a world whose CMS sign step fails. -/
theorem claim_C9_witness :
    (Sign "9c" optsAlice { worldOk with signErr := some (GoError.mk "sign failed") }).statusEvents
      = [] :=
  claim_C9 "9c" optsAlice { worldOk with signErr := some (GoError.mk "sign failed") }
    (GoError.mk "sign failed") rfl

lemma sign_statusEvents_shape (slot : String) (opts : SignOpts) (w : World) :
    (Sign slot opts w).statusEvents = []
    ∨ (Sign slot opts w).statusEvents = [StatusEvent.beginSigning]
    ∨ ∃ c, (Sign slot opts w).statusEvents
        = [StatusEvent.beginSigning, StatusEvent.sigCreated c opts.detach] := by
  simp only [Sign]
  cases w.getSigner with
  | error e1 => exact Or.inl rfl
  | ok u =>
    dsimp only
    cases w.getCert with
    | error e1 => exact Or.inl rfl
    | ok cert =>
      dsimp only
      cases certificateContainsUserId cert opts.userId with
      | panicked r => exact Or.inl rfl
      | err e1 => exact Or.inl rfl
      | ok u2 =>
        dsimp only
        cases hri : readInputStep opts.fileArgs w with
        | mk r1 rest =>
          cases rest with
          | mk ofl us =>
            cases r1 with
            | error e1 => exact Or.inl rfl
            | ok bs =>
              dsimp only
              cases w.newSignedData bs with
              | error e1 => exact Or.inl rfl
              | ok u3 =>
                dsimp only
                cases w.signErr with
                | some e1 => exact Or.inl rfl
                | none =>
                  dsimp only
                  cases hts : (if opts.timestampAuthority.length > 0 then
                      w.addTimestampsErr opts.timestampAuthority
                    else none) with
                  | some e1 =>
                    cases w.statusConfigured with
                    | false => exact Or.inl rfl
                    | true => exact Or.inr (Or.inl rfl)
                  | none =>
                    dsimp only
                    cases w.setCertificatesErr with
                    | some e1 =>
                      cases w.statusConfigured with
                      | false => exact Or.inl rfl
                      | true => exact Or.inr (Or.inl rfl)
                    | none =>
                      dsimp only
                      cases w.toDER
                          { content := bs, signerCerts := [cert],
                            detached := opts.detach,
                            timestamps :=
                              if opts.timestampAuthority.length > 0 then
                                [opts.timestampAuthority] else [],
                            chain := [cert] } with
                      | error e1 =>
                        cases w.statusConfigured with
                        | false => exact Or.inl rfl
                        | true => exact Or.inr (Or.inl rfl)
                      | ok der =>
                        dsimp only
                        cases w.writeErr with
                        | some e1 =>
                          cases w.statusConfigured with
                          | false => exact Or.inl rfl
                          | true => exact Or.inr (Or.inr ⟨cert, rfl⟩)
                        | none =>
                          cases w.statusConfigured with
                          | false => exact Or.inl rfl
                          | true => exact Or.inr (Or.inr ⟨cert, rfl⟩)

/-- Claim C5: whenever a `Sign` execution emits the SigCreated status
event, the BeginSigning event was emitted strictly earlier: the event trace
is then exactly BeginSigning followed by that SigCreated event. -/
theorem claim_C5 (slot : String) (opts : SignOpts) (w : World) (c : Certificate) (d : Bool)
    (h : StatusEvent.sigCreated c d ∈ (Sign slot opts w).statusEvents) :
    (Sign slot opts w).statusEvents
      = [StatusEvent.beginSigning, StatusEvent.sigCreated c d] := by
  rcases sign_statusEvents_shape slot opts w with hev | hev | ⟨c2, hev⟩
  · rw [hev] at h
    simp at h
  · rw [hev] at h
    simp at h
  · rw [hev] at h
    simp only [List.mem_cons, List.mem_singleton, List.not_mem_nil, or_false] at h
    rcases h with h | h
    · exact absurd h (by simp)
    · rw [hev]
      rw [StatusEvent.sigCreated.injEq] at h
      rw [h.1, h.2]

/-- Claim C5 witness: in the all-succeeding configured world, the trace is
exactly BeginSigning then SigCreated. -/
theorem claim_C5_witness :
    (Sign "9c" optsAlice worldOk).statusEvents
      = [StatusEvent.beginSigning, StatusEvent.sigCreated certAlice true] :=
  claim_C5 "9c" optsAlice worldOk certAlice true (by decide)

/-- Claim C7: when every step up to output succeeds but the final stdout
write fails, `Sign` fails (an error, not success), and the error is the
fresh leaf `errors.New("write signature")`: a `GoError.mk`, carrying no
wrapped cause, independent of the underlying write error `werr`. -/
theorem claim_C7 (slot : String) (opts : SignOpts) (w : World) (cert : Certificate)
    (bs der : ByteSeq) (ofl : Option String) (us : Bool) (werr : GoError)
    (hgs : w.getSigner = Except.ok ())
    (hgc : w.getCert = Except.ok cert)
    (hid : certificateContainsUserId cert opts.userId = GoResult.ok ())
    (hread : readInputStep opts.fileArgs w = (Except.ok bs, ofl, us))
    (hnsd : w.newSignedData bs = Except.ok ())
    (hsign : w.signErr = none)
    (hts : (if opts.timestampAuthority.length > 0 then
        w.addTimestampsErr opts.timestampAuthority else none) = none)
    (hsc : w.setCertificatesErr = none)
    (hder : w.toDER (signedDataOf cert bs opts) = Except.ok der)
    (hw : w.writeErr = some werr) :
    (Sign slot opts w).result = GoResult.err (GoError.mk "write signature") := by
  unfold signedDataOf at hder
  unfold Sign
  rw [hgs, hgc]
  dsimp only
  rw [hid]
  dsimp only
  rw [hread]
  dsimp only
  rw [hnsd]
  dsimp only
  rw [hsign]
  dsimp only
  rw [hts]
  dsimp only
  rw [hsc]
  dsimp only
  rw [hder]
  dsimp only
  rw [hw]

/-- Claim C7 witness: the all-succeeding world with a failing stdout
write. -/
theorem claim_C7_witness :
    (Sign "9c" optsAlice { worldOk with writeErr := some (GoError.mk "broken pipe") }).result
      = GoResult.err (GoError.mk "write signature") :=
  claim_C7 "9c" optsAlice { worldOk with writeErr := some (GoError.mk "broken pipe") }
    certAlice [104, 105] [48, 1] none true (GoError.mk "broken pipe")
    rfl rfl (by decide) rfl rfl rfl rfl rfl rfl rfl

/-- Claim C8: with the same signing inputs (same world: content,
certificate, signer behavior; same detach and timestamp settings), the
armor-mode run writes one PEM envelope labeled SIGNED MESSAGE whose
enclosed bytes equal the raw DER bytes written by the non-armor run (or
both runs write nothing, when the operation fails before output). -/
theorem claim_C8 (slot : String) (opts : SignOpts) (w : World) :
    ((Sign slot { opts with armor := true } w).stdout = []
      ∧ (Sign slot { opts with armor := false } w).stdout = [])
    ∨ ∃ der : ByteSeq,
        (Sign slot { opts with armor := true } w).stdout
          = [OutBlock.pemBlock "SIGNED MESSAGE" der]
        ∧ (Sign slot { opts with armor := false } w).stdout = [OutBlock.raw der] := by
  obtain ⟨fd, det, arm, uid, tsa, fa⟩ := opts
  simp only [Sign]
  dsimp only
  cases w.getSigner with
  | error e1 => exact Or.inl ⟨rfl, rfl⟩
  | ok u =>
    dsimp only
    cases w.getCert with
    | error e1 => exact Or.inl ⟨rfl, rfl⟩
    | ok cert =>
      dsimp only
      cases certificateContainsUserId cert uid with
      | panicked r => exact Or.inl ⟨rfl, rfl⟩
      | err e1 => exact Or.inl ⟨rfl, rfl⟩
      | ok u2 =>
        dsimp only
        cases hri : readInputStep fa w with
        | mk r1 rest =>
          cases rest with
          | mk ofl us =>
            cases r1 with
            | error e1 => exact Or.inl ⟨rfl, rfl⟩
            | ok bs =>
              dsimp only
              cases w.newSignedData bs with
              | error e1 => exact Or.inl ⟨rfl, rfl⟩
              | ok u3 =>
                dsimp only
                cases w.signErr with
                | some e1 => exact Or.inl ⟨rfl, rfl⟩
                | none =>
                  dsimp only
                  cases hts : (if tsa.length > 0 then w.addTimestampsErr tsa else none) with
                  | some e1 => exact Or.inl ⟨rfl, rfl⟩
                  | none =>
                    dsimp only
                    cases w.setCertificatesErr with
                    | some e1 => exact Or.inl ⟨rfl, rfl⟩
                    | none =>
                      dsimp only
                      cases w.toDER
                          { content := bs, signerCerts := [cert], detached := det,
                            timestamps := if tsa.length > 0 then [tsa] else [],
                            chain := [cert] } with
                      | error e1 => exact Or.inl ⟨rfl, rfl⟩
                      | ok der =>
                        dsimp only
                        cases w.writeErr with
                        | some e1 => exact Or.inl ⟨rfl, rfl⟩
                        | none => exact Or.inr ⟨der, rfl, rfl⟩

lemma sign_input_flags (slot : String) (opts : SignOpts) (w : World) (cert : Certificate)
    (hgs : w.getSigner = Except.ok ())
    (hgc : w.getCert = Except.ok cert)
    (hid : certificateContainsUserId cert opts.userId = GoResult.ok ()) :
    (Sign slot opts w).openedFile = (readInputStep opts.fileArgs w).2.1
    ∧ (Sign slot opts w).usedStdin = (readInputStep opts.fileArgs w).2.2 := by
  unfold Sign
  rw [hgs, hgc]
  dsimp only
  rw [hid]
  dsimp only
  cases hri : readInputStep opts.fileArgs w with
  | mk r1 rest =>
    cases rest with
    | mk ofl us =>
      cases r1 with
      | error e1 => exact ⟨rfl, rfl⟩
      | ok bs =>
        dsimp only
        cases w.newSignedData bs with
        | error e1 => exact ⟨rfl, rfl⟩
        | ok u3 =>
          dsimp only
          cases w.signErr with
          | some e1 => exact ⟨rfl, rfl⟩
          | none =>
            dsimp only
            cases hts : (if opts.timestampAuthority.length > 0 then
                w.addTimestampsErr opts.timestampAuthority else none) with
            | some e1 => exact ⟨rfl, rfl⟩
            | none =>
              dsimp only
              cases w.setCertificatesErr with
              | some e1 => exact ⟨rfl, rfl⟩
              | none =>
                dsimp only
                cases w.toDER
                    { content := bs, signerCerts := [cert],
                      detached := opts.detach,
                      timestamps :=
                        if opts.timestampAuthority.length > 0 then
                          [opts.timestampAuthority] else [],
                      chain := [cert] } with
                | error e1 => exact ⟨rfl, rfl⟩
                | ok der =>
                  dsimp only
                  cases w.writeErr with
                  | some e1 => exact ⟨rfl, rfl⟩
                  | none => exact ⟨rfl, rfl⟩

lemma readInputStep_flags_stdin (fileArgs : List String) (w : World)
    (h : fileArgs.length ≠ 1) :
    (readInputStep fileArgs w).2.1 = none ∧ (readInputStep fileArgs w).2.2 = true := by
  unfold readInputStep
  rw [if_neg h]
  cases w.readStdin with
  | error e => exact ⟨rfl, rfl⟩
  | ok bs => exact ⟨rfl, rfl⟩

lemma readInputStep_flags_file (name : String) (w : World) :
    (readInputStep [name] w).2.2 = false
    ∧ (w.openFile name = Except.ok () → (readInputStep [name] w).2.1 = some name) := by
  unfold readInputStep
  rw [if_pos (show List.length [name] = 1 from rfl)]
  simp only [List.headD_cons]
  cases ho : w.openFile name with
  | error e =>
    exact ⟨rfl, fun hc => Except.noConfusion hc⟩
  | ok u =>
    cases w.readFile name with
    | error e => exact ⟨rfl, fun h2 => rfl⟩
    | ok bs => exact ⟨rfl, fun h2 => rfl⟩

/-- Claim C10: once `Sign` reaches the input-reading step, a FileArgs list
of length other than one makes it read from standard input and open no
file, while a single-element FileArgs list makes it read that named file
(opening it when the open succeeds) and not standard input. -/
theorem claim_C10 (slot : String) (opts : SignOpts) (w : World) (cert : Certificate)
    (hgs : w.getSigner = Except.ok ())
    (hgc : w.getCert = Except.ok cert)
    (hid : certificateContainsUserId cert opts.userId = GoResult.ok ()) :
    (opts.fileArgs.length ≠ 1 →
      (Sign slot opts w).usedStdin = true ∧ (Sign slot opts w).openedFile = none)
    ∧ (∀ name, opts.fileArgs = [name] →
        (Sign slot opts w).usedStdin = false
        ∧ (w.openFile name = Except.ok () →
            (Sign slot opts w).openedFile = some name)) := by
  have hfl := sign_input_flags slot opts w cert hgs hgc hid
  constructor
  · intro hlen
    have h2 := readInputStep_flags_stdin opts.fileArgs w hlen
    exact ⟨hfl.2.trans h2.2, hfl.1.trans h2.1⟩
  · intro name hfa
    have h2 := readInputStep_flags_file name w
    constructor
    · rw [hfl.2, hfa]
      exact h2.1
    · intro ho
      rw [hfl.1, hfa]
      exact h2.2 ho

/-- Claim C10 witness: with an empty FileArgs list, the all-succeeding run
reads standard input and opens no file. -/
theorem claim_C10_witness :
    (Sign "9c" optsAlice worldOk).usedStdin = true
    ∧ (Sign "9c" optsAlice worldOk).openedFile = none :=
  (claim_C10 "9c" optsAlice worldOk certAlice rfl rfl (by decide)).1 (by decide)

end Pivit
